import Mathlib

/-!
Verification of the wiki synchronization engine in
`src/scripts/generate_wiki.py` (repository
`etec-integration-project/hola-project-tomielprodelsoftware`).

The Python module is shallowly embedded: JSON values loaded from the two
data files become the inductive `JValue`; Python dictionary subscripting,
`dict.get`, iteration, truthiness and `str.join` become explicit total Lean
functions returning `Except PyError _` where the Python operation can raise.
The orchestrating `generate_wiki_pages` function is embedded as a function
from an environment (tokens, permissions, git-command outcomes, file
contents) to a trace of externally visible actions plus a final result,
faithfully following the control flow of the source, including its
`try/except/finally` structure.
-/

namespace WikiGen

/-- JSON-like Python values as produced by `json.load` in
`verify_json_content`.  Objects are association lists with distinct keys
(as produced by Python's JSON parser). -/
inductive JValue where
  | jnull
  | jbool (b : Bool)
  | jnum (n : Int)
  | jstr (s : String)
  | jarr (xs : List JValue)
  | jobj (fields : List (String × JValue))

/-- Python errors that the embedded code can raise.  `wikiError` is the
module's own `WikiGenerationError`. -/
inductive PyError where
  | keyError (k : String)
  | typeError (m : String)
  | attributeError (m : String)
  | wikiError (m : String)
deriving DecidableEq, Repr

mutual

/-- Structural equality on `JValue`, mirroring Python `==` for the
comparisons the source performs (always against a string literal, where
Python equality is structural and cross-type comparison is `False`). -/
def jEq : JValue → JValue → Bool
  | .jnull, .jnull => true
  | .jbool a, .jbool b => a == b
  | .jnum a, .jnum b => a == b
  | .jstr a, .jstr b => a == b
  | .jarr a, .jarr b => jEqList a b
  | .jobj a, .jobj b => jEqFields a b
  | _, _ => false

/-- Elementwise `jEq` on lists. -/
def jEqList : List JValue → List JValue → Bool
  | [], [] => true
  | a :: as', b :: bs' => jEq a b && jEqList as' bs'
  | _, _ => false

/-- Elementwise `jEq` on object fields. -/
def jEqFields : List (String × JValue) → List (String × JValue) → Bool
  | [], [] => true
  | (ka, va) :: as', (kb, vb) :: bs' => ka == kb && jEq va vb && jEqFields as' bs'
  | _, _ => false

end

/-- Python truthiness (`if x:`): `None`, `False`, `0`, `""`, `[]`, and
an empty dict are falsy, everything else truthy. -/
def pyTruthy : JValue → Bool
  | .jnull => false
  | .jbool b => b
  | .jnum n => n != 0
  | .jstr s => s != ""
  | .jarr xs => !xs.isEmpty
  | .jobj fs => !fs.isEmpty

/-- Python `isinstance(v, dict)`. -/
def isDict : JValue → Bool
  | .jobj _ => true
  | _ => false

/-- First-match key lookup in an object's fields (keys are distinct). -/
def lookupField : List (String × JValue) → String → Option JValue
  | [], _ => none
  | (k, v) :: rest, key => if k == key then some v else lookupField rest key

/-- Python subscripting `v[k]` with a string key: a dict yields the value
or raises `KeyError`; strings, lists and scalars raise `TypeError`. -/
def subscript (v : JValue) (k : String) : Except PyError JValue :=
  match v with
  | .jobj fs =>
    match lookupField fs k with
    | some x => .ok x
    | none => .error (.keyError k)
  | .jstr _ => .error (.typeError "string indices must be integers")
  | .jarr _ => .error (.typeError "list indices must be integers, not str")
  | _ => .error (.typeError "object is not subscriptable")

/-- Python `v.get(k)` (default `None`): only dicts have `.get`; anything
else raises `AttributeError`. -/
def pyGet (v : JValue) (k : String) : Except PyError JValue :=
  match v with
  | .jobj fs => .ok ((lookupField fs k).getD .jnull)
  | _ => .error (.attributeError "object has no attribute get")

/-- Python `v.get(k, d)` with an explicit default. -/
def pyGetD (v : JValue) (k : String) (d : JValue) : Except PyError JValue :=
  match v with
  | .jobj fs => .ok ((lookupField fs k).getD d)
  | _ => .error (.attributeError "object has no attribute get")

/-- Python iteration `for x in v`: lists yield elements, strings yield
one-character strings, dicts yield their keys; scalars raise `TypeError`. -/
def pyIter : JValue → Except PyError (List JValue)
  | .jarr xs => .ok xs
  | .jstr s => .ok (s.toList.map fun c => .jstr (String.singleton c))
  | .jobj fs => .ok (fs.map fun kv => .jstr kv.fst)
  | _ => .error (.typeError "object is not iterable")

/-- A single-quote character, used when rendering Python `repr`. -/
def squote : String := String.singleton (Char.ofNat 39)

/-- Python string join, `sep.join(ss)`. -/
def joinWith (sep : String) : List String → String
  | [] => ""
  | [x] => x
  | x :: rest => x ++ sep ++ joinWith sep rest

/-- Python whitespace test behind `not token.strip()`: true iff the
string strips to empty, i.e. every character is whitespace. -/
def isBlank (s : String) : Bool :=
  s.toList.all fun c => c == ' ' || c == '\t' || c == '\n' || c == '\r'

mutual

/-- Python `repr` of a JSON value (close enough for the f-string
interpolations the source performs; string-escape corner cases are not
claim-relevant). -/
def pyRepr : JValue → String
  | .jnull => "None"
  | .jbool true => "True"
  | .jbool false => "False"
  | .jnum n => toString n
  | .jstr s => squote ++ s ++ squote
  | .jarr xs => "[" ++ joinWith ", " (pyReprList xs) ++ "]"
  | .jobj fs => "\x7b" ++ joinWith ", " (pyReprFields fs) ++ "\x7d"

/-- Python `repr` of each list element. -/
def pyReprList : List JValue → List String
  | [] => []
  | x :: rest => pyRepr x :: pyReprList rest

/-- Python `repr` of each object field. -/
def pyReprFields : List (String × JValue) → List String
  | [] => []
  | (k, v) :: rest => (squote ++ k ++ squote ++ ": " ++ pyRepr v) :: pyReprFields rest

end

/-- Python `str`, as used by f-string interpolation. -/
def pyStr : JValue → String
  | .jstr s => s
  | v => pyRepr v

/-- Embedding of `format_labels` (src/scripts/generate_wiki.py lines 230-243): falsy
input yields `[]`; a list of all-dict entries maps each to its `name`
(default `""`); any other list is returned unchanged; a single string is
wrapped; anything else yields `[]`. -/
def format_labels (labels_data : JValue) : List JValue :=
  if !pyTruthy labels_data then []
  else
    match labels_data with
    | .jarr xs =>
      if xs.all isDict then
        xs.map fun l =>
          match l with
          | .jobj fs => (lookupField fs "name").getD (.jstr "")
          | _ => .jstr ""
      else xs
    | .jstr _ => [labels_data]
    | _ => []

/-- Checks that every element is a Python `str`, returning the strings. -/
def asStrings : List JValue → Option (List String)
  | [] => some []
  | .jstr s :: rest => (asStrings rest).map (s :: ·)
  | _ :: _ => none

/-- Python `", ".join(xs)`: raises `TypeError` when any element is not a
string. -/
def joinLabels (xs : List JValue) : Except PyError String :=
  match asStrings xs with
  | some ss => .ok (joinWith ", " ss)
  | none => .error (.typeError "sequence item: expected str instance")

/-- Text written to a page so far, plus the error that interrupted
writing, if any (a `with open(...)` block creates the file and keeps
everything written before the exception). -/
abbrev PartialWrite := String × Option PyError

/-- One iteration of the `for ms in milestones` loop writing
`Milestones.md` (lines 220-227): `ms['title']`, `ms['state']`,
`ms.get('description') or 'Sin descripción'`, the optional
`due_on` line, and the `---` separator. -/
def renderMilestoneEntry (ms : JValue) : PartialWrite :=
  match subscript ms "title" with
  | .error e => ("", some e)
  | .ok t =>
    let s1 := "## " ++ pyStr t ++ "\n"
    match subscript ms "state" with
    | .error e => (s1, some e)
    | .ok st =>
      let s2 := s1 ++ "**Estado:** " ++ pyStr st ++ "\n\n"
      match pyGet ms "description" with
      | .error e => (s2, some e)
      | .ok d =>
        let dv := if pyTruthy d then d else .jstr "Sin descripción"
        let s3 := s2 ++ "**Descripción:** " ++ pyStr dv ++ "\n\n"
        match pyGet ms "due_on" with
        | .error e => (s3, some e)
        | .ok du =>
          if pyTruthy du then
            match subscript ms "due_on" with
            | .error e => (s3, some e)
            | .ok duv =>
              (s3 ++ "**Fecha límite:** " ++ pyStr duv ++ "\n\n" ++ "---\n\n", none)
          else (s3 ++ "---\n\n", none)

/-- The milestone loop: stops at the first entry that raises. -/
def renderMilestonesLoop : List JValue → PartialWrite
  | [] => ("", none)
  | ms :: rest =>
    match renderMilestoneEntry ms with
    | (s, some e) => (s, some e)
    | (s, none) =>
      let (s', e') := renderMilestonesLoop rest
      (s ++ s', e')

/-- Page `Milestones.md` (lines 218-227): header, then the loop over the value
loaded from `milestones.json` (iterating a non-iterable raises after the
header is written). -/
def milestonesPage (milestones : JValue) : PartialWrite :=
  let hdr := "# Milestones del Servicio MercadoPago\n\n"
  match pyIter milestones with
  | .error e => (hdr, some e)
  | .ok xs =>
    let (body, err) := renderMilestonesLoop xs
    (hdr ++ body, err)

/-- Normalization of an issue's milestone reference (lines 252-257): a
dict renders its `title` (placeholder `'Sin título'` when the key is
missing); any other truthy value is used as the title itself. -/
def milestoneTitle (m : JValue) : JValue :=
  match m with
  | .jobj fs => (lookupField fs "title").getD (.jstr "Sin título")
  | _ => m

/-- The part of an issue entry shared between the two issue pages after
the created/closed lines: the optional milestone line (lines 251-258), the
optional labels line through `format_labels` and `', '.join` (259-262),
and the body with its placeholder (263-264). -/
def renderIssueTail (issue : JValue) (acc : String) : PartialWrite :=
  match pyGet issue "milestone" with
  | .error e => (acc, some e)
  | .ok m =>
    let s3 :=
      if pyTruthy m then
        acc ++ "**Milestone:** " ++ pyStr (milestoneTitle m) ++ "\n\n"
      else acc
    match pyGet issue "labels" with
    | .error e => (s3, some e)
    | .ok l =>
      if pyTruthy l then
        let labels := format_labels l
        if !labels.isEmpty then
          match joinLabels labels with
          | .error e => (s3, some e)
          | .ok j =>
            let s4 := s3 ++ "**Labels:** " ++ j ++ "\n\n"
            match pyGet issue "body" with
            | .error e => (s4, some e)
            | .ok b =>
              let bv := if pyTruthy b then b else .jstr "Sin descripción"
              (s4 ++ pyStr bv ++ "\n\n---\n\n", none)
        else
          match pyGet issue "body" with
          | .error e => (s3, some e)
          | .ok b =>
            let bv := if pyTruthy b then b else .jstr "Sin descripción"
            (s3 ++ pyStr bv ++ "\n\n---\n\n", none)
      else
        match pyGet issue "body" with
        | .error e => (s3, some e)
        | .ok b =>
          let bv := if pyTruthy b then b else .jstr "Sin descripción"
          (s3 ++ pyStr bv ++ "\n\n---\n\n", none)

/-- One entry of `Issues-Activos.md` (lines 248-264). -/
def renderActiveIssueEntry (issue : JValue) : PartialWrite :=
  match subscript issue "number" with
  | .error e => ("", some e)
  | .ok n =>
    match subscript issue "title" with
    | .error e => ("", some e)
    | .ok t =>
      let s1 := "## #" ++ pyStr n ++ ": " ++ pyStr t ++ "\n"
      match subscript issue "created_at" with
      | .error e => (s1, some e)
      | .ok c =>
        renderIssueTail issue (s1 ++ "**Creado:** " ++ pyStr c ++ "\n\n")

/-- One entry of `Issues-Cerrados.md` (lines 270-287): like an active
entry but with a single newline after the created line and an extra
`Cerrado` line using `issue.get('closed_at', 'Desconocido')`. -/
def renderClosedIssueEntry (issue : JValue) : PartialWrite :=
  match subscript issue "number" with
  | .error e => ("", some e)
  | .ok n =>
    match subscript issue "title" with
    | .error e => ("", some e)
    | .ok t =>
      let s1 := "## #" ++ pyStr n ++ ": " ++ pyStr t ++ "\n"
      match subscript issue "created_at" with
      | .error e => (s1, some e)
      | .ok c =>
        let s2 := s1 ++ "**Creado:** " ++ pyStr c ++ "\n"
        match pyGetD issue "closed_at" (.jstr "Desconocido") with
        | .error e => (s2, some e)
        | .ok cl =>
          renderIssueTail issue (s2 ++ "**Cerrado:** " ++ pyStr cl ++ "\n\n")

/-- The loop over one issue page's entries. -/
def renderIssuesLoop (entry : JValue → PartialWrite) : List JValue → PartialWrite
  | [] => ("", none)
  | i :: rest =>
    match entry i with
    | (s, some e) => (s, some e)
    | (s, none) =>
      let (s', e') := renderIssuesLoop entry rest
      (s ++ s', e')

/-- An issue page: fixed header plus the entry loop. -/
def issuesPage (hdr : String) (entry : JValue → PartialWrite)
    (xs : List JValue) : PartialWrite :=
  let (body, err) := renderIssuesLoop entry xs
  (hdr ++ body, err)

/-- The list comprehension `[i for i in issues if i['state'] == s]`
(lines 245 and 267), which raises if some element has no subscriptable
`'state'`. -/
def filterByState : List JValue → String → Except PyError (List JValue)
  | [], _ => .ok []
  | i :: rest, s => do
    let st ← subscript i "state"
    let tail ← filterByState rest s
    pure (if jEq st (.jstr s) then i :: tail else tail)

/-- List `active_issues` (line 245), including the iteration over the loaded
`issues` value. -/
def activeIssuesOf (issues : JValue) : Except PyError (List JValue) := do
  filterByState (← pyIter issues) "open"

/-- List `closed_issues` (line 267). -/
def closedIssuesOf (issues : JValue) : Except PyError (List JValue) := do
  filterByState (← pyIter issues) "closed"

/-- The content of `Home.md` (lines 205-215). -/
def homeContent : String :=
  "# UM Tesorería MercadoPago Service Wiki\n\nBienvenido a la Wiki del servicio de integración con MercadoPago de UM Tesorería.\n\n## Navegación Rápida\n\n- [[Milestones]]\n- [[Issues-Activos]]\n- [[Issues-Cerrados]]\n"

/-- The state of one of the two data files as seen by
`verify_json_content`: missing on disk, unreadable (`IOError`), invalid
JSON (`json.JSONDecodeError`), or successfully parsed content. -/
inductive FileData where
  | absent
  | unreadable
  | invalid
  | content (j : JValue)

/-- The `data/` directory: `issues.json` and `milestones.json`. -/
structure DataDir where
  issues : FileData
  milestones : FileData

/-- Embedding of `verify_json_content` (lines 294-308): a missing file, a decode error
and an `IOError` all raise `WikiGenerationError`; parsed data is returned
as-is (an empty collection only prints a warning). -/
def verify_json_content : FileData → Except PyError JValue
  | .absent => .error (.wikiError "Archivo no encontrado")
  | .unreadable => .error (.wikiError "Error leyendo archivo")
  | .invalid => .error (.wikiError "Error decodificando")
  | .content j => .ok j

/-- Result of `generate_wiki_content`: the pages written (name, content) —
a page interrupted by an exception keeps its partial content — and either
the boolean return value or the exception that escaped. -/
structure GenResult where
  written : List (String × String)
  outcome : Except PyError Bool

/-- Embedding of `generate_wiki_content` (lines 188-292): load and verify both files,
return `False` when both are falsy, otherwise write `Home.md`,
`Milestones.md`, `Issues-Activos.md`, `Issues-Cerrados.md` in that order.
Only `IOError` is caught inside; the embedding has no I/O failures, so any
escaping error is a `KeyError`/`TypeError`/`AttributeError` from record
access, which aborts after the pages already written. -/
def generate_wiki_content (dd : DataDir) : GenResult :=
  match verify_json_content dd.issues with
  | .error e => ⟨[], .error e⟩
  | .ok issues =>
    match verify_json_content dd.milestones with
    | .error e => ⟨[], .error e⟩
    | .ok milestones =>
      if !pyTruthy issues && !pyTruthy milestones then ⟨[], .ok false⟩
      else
        let w1 := [("Home.md", homeContent)]
        let (mc, me) := milestonesPage milestones
        let w2 := w1 ++ [("Milestones.md", mc)]
        match me with
        | some e => ⟨w2, .error e⟩
        | none =>
          match activeIssuesOf issues with
          | .error e => ⟨w2, .error e⟩
          | .ok act =>
            let (ac, ae) := issuesPage "# Issues Activos - Servicio MercadoPago\n\n"
              renderActiveIssueEntry act
            let w3 := w2 ++ [("Issues-Activos.md", ac)]
            match ae with
            | some e => ⟨w3, .error e⟩
            | none =>
              match closedIssuesOf issues with
              | .error e => ⟨w3, .error e⟩
              | .ok cls =>
                let (cc, ce) := issuesPage "# Issues Cerrados - Servicio MercadoPago\n\n"
                  renderClosedIssueEntry cls
                let w4 := w3 ++ [("Issues-Cerrados.md", cc)]
                match ce with
                | some e => ⟨w4, .error e⟩
                | none => ⟨w4, .ok true⟩

/-- Repository permission flags returned by the GitHub API
(`repo_data['permissions']`). -/
structure Perms where
  push : Bool
  pull : Bool
  admin : Bool
deriving DecidableEq, Repr

/-- Outcome of the `requests.get(api_url)` call in `check_repo_access`:
either repository data (its `has_wiki` flag and permissions) or an HTTP
error status. -/
inductive ApiResult where
  | ok (hasWiki : Bool) (perms : Perms)
  | errStatus (code : Nat)
deriving DecidableEq, Repr

/-- Embedding of `check_repo_access` (lines 318-347): HTTP errors map to the
taxonomy's Unauthenticated/Forbidden/NotFound messages; on a 200 the
`push`, `pull` and `has_wiki`/`admin` checks each raise
`WikiGenerationError` in that order. -/
def check_repo_access : ApiResult → Except PyError (Bool × Perms)
  | .errStatus 401 => .error (.wikiError "Token inválido o expirado")
  | .errStatus 403 => .error (.wikiError "Token sin permisos suficientes")
  | .errStatus 404 => .error (.wikiError "Repositorio no encontrado")
  | .errStatus _ => .error (.wikiError "Error de API")
  | .ok hasWiki perms =>
    if !perms.push then
      .error (.wikiError "El token no tiene permisos de escritura")
    else if !perms.pull then
      .error (.wikiError "El token no tiene permisos de lectura")
    else if !hasWiki && !perms.admin then
      .error (.wikiError "La wiki está deshabilitada y el token no tiene permisos para habilitarla")
    else .ok (hasWiki, perms)

/-- Externally visible actions of one `generate_wiki_pages` run, in
program order: filesystem operations on the scratch directory, git
commands, API calls, page writes, and the finalizer's steps. -/
inductive Action where
  | cleanupWikiDir
  | apiGet
  | enableWiki
  | gitConfig
  | gitLsRemote
  | gitClone
  | mkdirWikiDir
  | chdirWiki
  | gitInit
  | gitRemoteAdd
  | gitLsRemoteSymref
  | gitCheckout (branch : String)
  | gitPull (branch : String)
  | writePage (name : String)
  | gitAdd
  | gitStatus
  | gitCommit (msg : String)
  | gitBranchM (branch : String)
  | gitPush (force : Bool) (branch : String)
  | chdirBack
  | removeCredFile
deriving DecidableEq, Repr

/-- The environment of one run: process environment variables, data-file
contents, the state of the fixed `wiki_content` scratch path, the GitHub
API's answers, and the outcome of each fallible external git command.
Purely local commands the source cannot meaningfully fail on
(`git config`, `git status`) are modelled as succeeding. -/
structure Env where
  githubToken : Option String
  githubRepository : Option String
  dataDirExists : Bool
  dataDir : DataDir
  wikiDirLeftover : Bool
  api : ApiResult
  enableWikiOk : Bool
  lsRemoteOk : Bool
  cloneOk : Bool
  defaultBranchIsMaster : Bool
  checkoutOk : Bool
  pullOk : Bool
  addOk : Bool
  commitOk : Bool
  branchMOk : Bool
  pushOk : Bool
  statusDirty : Bool
  gitInitOk : Bool
  remoteAddOk : Bool
  credFileExists : Bool

/-- Result of the `try` body of `generate_wiki_pages`: the action trace,
the escaping exception if any, the source's `success` flag, and whether
the scratch directory exists when the `finally` block starts. -/
structure BodyResult where
  trace : List Action
  result : Except PyError Unit
  success : Bool
  wikiDirExists : Bool

/-- The new-wiki branch (lines 121-138): mkdir, chdir, `git init`,
`git remote add`, generate content, then unconditionally `git add`,
`git commit -m 'Initial wiki content'`, `git branch -M main`,
`git push --force origin main`. -/
def newWikiPath (env : Env) (t : List Action) : BodyResult :=
  let t := t ++ [.mkdirWikiDir, .chdirWiki, .gitInit]
  if !env.gitInitOk then
    ⟨t, .error (.wikiError "Error inicializando repositorio"), false, true⟩
  else
    let t := t ++ [.gitRemoteAdd]
    if !env.remoteAddOk then
      ⟨t, .error (.wikiError "Error configurando remote"), false, true⟩
    else
      let gen := generate_wiki_content env.dataDir
      let t := t ++ gen.written.map fun p => Action.writePage p.fst
      match gen.outcome with
      | .error e => ⟨t, .error e, false, true⟩
      | .ok false =>
        ⟨t, .error (.wikiError "No se pudo generar el contenido inicial"), false, true⟩
      | .ok true =>
        let t := t ++ [.gitAdd]
        if !env.addOk then ⟨t, .error (.wikiError "Error en comando Git"), false, true⟩
        else
          let t := t ++ [.gitCommit "Initial wiki content"]
          if !env.commitOk then ⟨t, .error (.wikiError "Error en comando Git"), false, true⟩
          else
            let t := t ++ [.gitBranchM "main"]
            if !env.branchMOk then ⟨t, .error (.wikiError "Error en comando Git"), false, true⟩
            else
              let t := t ++ [.gitPush true "main"]
              if !env.pushOk then ⟨t, .error (.wikiError "Error en comando Git"), false, true⟩
              else ⟨t, .ok (), true, true⟩

/-- Embedding of `get_default_branch` (lines 21-29): `master` when the symref probe
reports it, else the `main` fallback. -/
def branchOf (env : Env) : String :=
  if env.defaultBranchIsMaster then "master" else "main"

/-- The existing-wiki branch (lines 139-161): chdir, resolve the default
branch (`get_default_branch`, lines 21-29, never raises: `master` when the
symref probe reports it, else `main`), checkout and pull (both fatal on
failure), generate content, `git add`, `git status --porcelain`, and only
when the status output is non-empty commit `'Update wiki content'` and
push (without `--force`). -/
def existingWikiPath (env : Env) (t : List Action) : BodyResult :=
  let branch := branchOf env
  let t := t ++ [.chdirWiki, .gitLsRemoteSymref, .gitCheckout branch]
  if !env.checkoutOk then
    ⟨t, .error (.wikiError "Error cambiando a rama por defecto"), false, true⟩
  else
    let t := t ++ [.gitPull branch]
    if !env.pullOk then
      ⟨t, .error (.wikiError "Error actualizando rama"), false, true⟩
    else
      let gen := generate_wiki_content env.dataDir
      let t := t ++ gen.written.map fun p => Action.writePage p.fst
      match gen.outcome with
      | .error e => ⟨t, .error e, false, true⟩
      | .ok false =>
        ⟨t, .error (.wikiError "No se pudo generar el contenido"), false, true⟩
      | .ok true =>
        let t := t ++ [.gitAdd]
        if !env.addOk then ⟨t, .error (.wikiError "Error en comando Git"), false, true⟩
        else
          let t := t ++ [.gitStatus]
          if env.statusDirty then
            let t := t ++ [.gitCommit "Update wiki content"]
            if !env.commitOk then ⟨t, .error (.wikiError "Error en comando Git"), false, true⟩
            else
              let t := t ++ [.gitPush false branch]
              if !env.pushOk then ⟨t, .error (.wikiError "Error en comando Git"), false, true⟩
              else ⟨t, .ok (), true, true⟩
          else ⟨t, .ok (), true, true⟩

/-- The `try` body of `generate_wiki_pages` (lines 74-162): verify the
token, clean a leftover scratch directory, read `GITHUB_REPOSITORY`
(`KeyError` when absent), check repository access, enable the wiki when
disabled, configure git, probe the remote, attempt the clone, and branch
on the clone outcome. -/
def bodyRun (env : Env) : BodyResult :=
  match env.githubToken with
  | none =>
    ⟨[], .error (.wikiError "GITHUB_TOKEN no encontrado en variables de entorno"),
      false, env.wikiDirLeftover⟩
  | some tok =>
    if isBlank tok then
      ⟨[], .error (.wikiError "GITHUB_TOKEN está vacío"), false, env.wikiDirLeftover⟩
    else
      let t0 : List Action := if env.wikiDirLeftover then [.cleanupWikiDir] else []
      match env.githubRepository with
      | none => ⟨t0, .error (.keyError "GITHUB_REPOSITORY"), false, false⟩
      | some _ =>
        let t1 := t0 ++ [.apiGet]
        match check_repo_access env.api with
        | .error e => ⟨t1, .error e, false, false⟩
        | .ok (hasWiki, _perms) =>
          let t2 := if hasWiki then t1 else t1 ++ [.enableWiki]
          if !hasWiki && !env.enableWikiOk then
            ⟨t2, .error (.wikiError "Error habilitando wiki"), false, false⟩
          else
            let t3 := t2 ++ [.gitConfig, .gitConfig, .gitLsRemote]
            if !env.lsRemoteOk then
              ⟨t3, .error (.wikiError "No se puede acceder al repositorio wiki"), false, false⟩
            else
              let t4 := t3 ++ [.gitClone]
              if !env.cloneOk then newWikiPath env t4
              else existingWikiPath env t4

/-- The rewrapping performed by the `except` clauses (lines 164-174): a
`WikiGenerationError` is re-raised unchanged; any other exception is
wrapped as `WikiGenerationError(f"Error inesperado: {str(e)}")` (Python's
`str` of a `KeyError` is the quoted key). -/
def toRaised : PyError → PyError
  | .wikiError m => .wikiError m
  | .keyError k => .wikiError ("Error inesperado: " ++ squote ++ k ++ squote)
  | .typeError m => .wikiError ("Error inesperado: " ++ m)
  | .attributeError m => .wikiError ("Error inesperado: " ++ m)

/-- Observable outcome of one full `generate_wiki_pages` run. -/
structure RunOutcome where
  trace : List Action
  result : Except PyError Unit
  wikiDirAtEnd : Bool
  credFileAtEnd : Bool

/-- Embedding of `generate_wiki_pages` (lines 59-186).  The data-directory check
(line 71) raises before the `try`, so no `finally` cleanup runs for it.
Otherwise the `finally` block (lines 175-186) chdirs back, removes the
scratch directory only when `success` is false, and removes the
credential cache file whenever it exists. -/
def generate_wiki_pages (env : Env) : RunOutcome :=
  if !env.dataDirExists then
    ⟨[], .error (.wikiError "Directorio de datos no encontrado"),
      env.wikiDirLeftover, env.credFileExists⟩
  else
    let b := bodyRun env
    let res : Except PyError Unit :=
      match b.result with
      | .ok _ => .ok ()
      | .error e => .error (toRaised e)
    let t := b.trace ++ [.chdirBack]
    let cleaned := !b.success && b.wikiDirExists
    let t := if cleaned then t ++ [.cleanupWikiDir] else t
    let dirEnd := if cleaned then false else b.wikiDirExists
    let t := if env.credFileExists then t ++ [.removeCredFile] else t
    ⟨t, res, dirEnd, false⟩

/-- Whether the staged working tree differs from HEAD at the point line
157 would inspect it.  On the existing-store path this is the porcelain
status from the environment; on the new-store path the repository was
created by `git init` moments earlier and the generator has just written
four pages into it, so the staged tree necessarily differs — the source
never runs `git status` there. -/
def treeDirty (env : Env) : Bool :=
  if env.cloneOk then env.statusDirty else true

/-- The test `i['state'] == s` of the partition comprehensions, as a
boolean on records whose `state` subscript succeeds. -/
def stateIs (i : JValue) (s : String) : Bool :=
  match subscript i "state" with
  | .ok v => jEq v (.jstr s)
  | .error _ => false

/-- The actions executed by the `try` body before the clone-outcome
branch, given the wiki flag returned by the access check. -/
def leadTrace (env : Env) (hasWiki : Bool) : List Action :=
  (if env.wikiDirLeftover then [Action.cleanupWikiDir] else []) ++
    [Action.apiGet] ++
    (if hasWiki then [] else [Action.enableWiki]) ++
    [Action.gitConfig, Action.gitConfig, Action.gitLsRemote, Action.gitClone]

/-- A well-formed open issue used as a concrete input. -/
def sampleOpenIssue : JValue :=
  .jobj [("number", .jnum 1), ("title", .jstr "Timeout"),
    ("state", .jstr "open"), ("created_at", .jstr "2024-01-01T00:00:00Z"),
    ("labels", .jarr [.jstr "bug"]), ("body", .jstr "")]

/-- A well-formed closed issue used as a concrete input. -/
def sampleClosedIssue : JValue :=
  .jobj [("number", .jnum 2), ("title", .jstr "Crash"),
    ("state", .jstr "closed"), ("created_at", .jstr "2024-01-02T00:00:00Z"),
    ("closed_at", .jstr "2024-01-03T00:00:00Z"), ("body", .jstr "fixed")]

/-- A baseline environment in which every external interaction succeeds:
valid token, existing repository with wiki enabled and full permissions,
an existing remote wiki (clone succeeds), valid non-empty data files, and
a dirty tree after regeneration. -/
def baseEnv : Env :=
  { githubToken := some "ghs-token", githubRepository := some "owner/repo",
    dataDirExists := true,
    dataDir := { issues := .content (.jarr [sampleOpenIssue, sampleClosedIssue]),
                 milestones := .content (.jarr []) },
    wikiDirLeftover := false,
    api := .ok true { push := true, pull := true, admin := true },
    enableWikiOk := true, lsRemoteOk := true, cloneOk := true,
    defaultBranchIsMaster := false, checkoutOk := true, pullOk := true,
    addOk := true, commitOk := true, branchMOk := true, pushOk := true,
    statusDirty := true, gitInitOk := true, remoteAddOk := true,
    credFileExists := true }

/-- Both data files parse to empty collections. -/
def emptyDataDir : DataDir :=
  { issues := .content (.jarr []), milestones := .content (.jarr []) }

/-- An issue whose `labels` value is a list mixing a string with a
number — the malformed-shape example from the claim. -/
def mixedLabelsIssue : JValue :=
  .jobj [("number", .jnum 1), ("title", .jstr "T"), ("state", .jstr "open"),
    ("created_at", .jstr "2024-01-01"), ("labels", .jarr [.jstr "bug", .jnum 5])]

/-! ### Helper lemmas -/

theorem no_commit_leadTrace (env : Env) (hw : Bool) (m : String) :
    Action.gitCommit m ∉ leadTrace env hw := by
  cases h : env.wikiDirLeftover <;> cases hw <;> simp [leadTrace, h]

theorem no_push_leadTrace (env : Env) (hw : Bool) (f : Bool) (b : String) :
    Action.gitPush f b ∉ leadTrace env hw := by
  cases h : env.wikiDirLeftover <;> cases hw <;> simp [leadTrace, h]

theorem no_write_leadTrace (env : Env) (hw : Bool) (n : String) :
    Action.writePage n ∉ leadTrace env hw := by
  cases h : env.wikiDirLeftover <;> cases hw <;> simp [leadTrace, h]

theorem no_add_leadTrace (env : Env) (hw : Bool) :
    Action.gitAdd ∉ leadTrace env hw := by
  cases h : env.wikiDirLeftover <;> cases hw <;> simp [leadTrace, h]

theorem bodyRun_eq_paths (env : Env) (tk r : String) (hasWiki : Bool) (perms : Perms)
    (htok : env.githubToken = some tk) (htk : isBlank tk = false)
    (hrepo : env.githubRepository = some r)
    (hapi : env.api = .ok hasWiki perms)
    (hpush : perms.push = true) (hpull : perms.pull = true)
    (hadmin : hasWiki = false → perms.admin = true)
    (hen : hasWiki = false → env.enableWikiOk = true)
    (hls : env.lsRemoteOk = true) :
    bodyRun env =
      if env.cloneOk then existingWikiPath env (leadTrace env hasWiki)
      else newWikiPath env (leadTrace env hasWiki) := by
  cases hasWiki with
  | true =>
    simp [bodyRun, htok, htk, hrepo, hapi, check_repo_access, hpush, hpull, hls,
      leadTrace, List.append_assoc]
    cases hc : env.cloneOk <;> simp [hc]
  | false =>
    have h1 := hadmin rfl
    have h2 := hen rfl
    simp [bodyRun, htok, htk, hrepo, hapi, check_repo_access, hpush, hpull, hls,
      h1, h2, leadTrace, List.append_assoc]
    cases hc : env.cloneOk <;> simp [hc]

theorem existingWikiPath_success (env : Env) (t : List Action)
    (hck : env.checkoutOk = true) (hpl : env.pullOk = true)
    (hgen : (generate_wiki_content env.dataDir).outcome = .ok true)
    (hadd : env.addOk = true) (hcm : env.commitOk = true) (hps : env.pushOk = true) :
    existingWikiPath env t =
      ⟨t ++ [.chdirWiki, .gitLsRemoteSymref, .gitCheckout (branchOf env),
          .gitPull (branchOf env)] ++
        (generate_wiki_content env.dataDir).written.map (fun p => .writePage p.fst) ++
        [.gitAdd, .gitStatus] ++
        (if env.statusDirty then
          [.gitCommit "Update wiki content", .gitPush false (branchOf env)] else []),
        .ok (), true, true⟩ := by
  cases hsd : env.statusDirty <;>
    simp [existingWikiPath, hck, hpl, hgen, hadd, hcm, hps, hsd, List.append_assoc]

theorem existingWikiPath_genfalse (env : Env) (t : List Action)
    (hck : env.checkoutOk = true) (hpl : env.pullOk = true)
    (hgen : (generate_wiki_content env.dataDir).outcome = .ok false) :
    existingWikiPath env t =
      ⟨t ++ [.chdirWiki, .gitLsRemoteSymref, .gitCheckout (branchOf env),
          .gitPull (branchOf env)] ++
        (generate_wiki_content env.dataDir).written.map (fun p => .writePage p.fst),
        .error (.wikiError "No se pudo generar el contenido"), false, true⟩ := by
  simp [existingWikiPath, hck, hpl, hgen, List.append_assoc]

theorem existingWikiPath_checkoutFail (env : Env) (t : List Action)
    (hck : env.checkoutOk = false) :
    existingWikiPath env t =
      ⟨t ++ [.chdirWiki, .gitLsRemoteSymref, .gitCheckout (branchOf env)],
        .error (.wikiError "Error cambiando a rama por defecto"), false, true⟩ := by
  simp [existingWikiPath, hck]

theorem existingWikiPath_pullFail (env : Env) (t : List Action)
    (hck : env.checkoutOk = true) (hpl : env.pullOk = false) :
    existingWikiPath env t =
      ⟨t ++ [.chdirWiki, .gitLsRemoteSymref, .gitCheckout (branchOf env),
          .gitPull (branchOf env)],
        .error (.wikiError "Error actualizando rama"), false, true⟩ := by
  simp [existingWikiPath, hck, hpl, List.append_assoc]

theorem newWikiPath_success (env : Env) (t : List Action)
    (hinit : env.gitInitOk = true) (hra : env.remoteAddOk = true)
    (hgen : (generate_wiki_content env.dataDir).outcome = .ok true)
    (hadd : env.addOk = true) (hcm : env.commitOk = true)
    (hbm : env.branchMOk = true) (hps : env.pushOk = true) :
    newWikiPath env t =
      ⟨t ++ [.mkdirWikiDir, .chdirWiki, .gitInit, .gitRemoteAdd] ++
        (generate_wiki_content env.dataDir).written.map (fun p => .writePage p.fst) ++
        [.gitAdd, .gitCommit "Initial wiki content", .gitBranchM "main",
          .gitPush true "main"],
        .ok (), true, true⟩ := by
  simp [newWikiPath, hinit, hra, hgen, hadd, hcm, hbm, hps, List.append_assoc]

theorem newWikiPath_genfalse (env : Env) (t : List Action)
    (hinit : env.gitInitOk = true) (hra : env.remoteAddOk = true)
    (hgen : (generate_wiki_content env.dataDir).outcome = .ok false) :
    newWikiPath env t =
      ⟨t ++ [.mkdirWikiDir, .chdirWiki, .gitInit, .gitRemoteAdd] ++
        (generate_wiki_content env.dataDir).written.map (fun p => .writePage p.fst),
        .error (.wikiError "No se pudo generar el contenido inicial"), false, true⟩ := by
  simp [newWikiPath, hinit, hra, hgen, List.append_assoc]

theorem run_trace_mem (env : Env) (hd : env.dataDirExists = true) (a : Action)
    (h : a ∈ (generate_wiki_pages env).trace) :
    a ∈ (bodyRun env).trace ∨ a = .chdirBack ∨ a = .cleanupWikiDir ∨
      a = .removeCredFile := by
  simp only [generate_wiki_pages, hd, Bool.not_true, Bool.false_eq_true,
    if_false] at h
  split at h <;> split at h <;> simp_all [List.mem_append] <;> tauto

theorem newWikiPath_success_iff (env : Env) (t : List Action) :
    ((newWikiPath env t).result = .ok () ↔ (newWikiPath env t).success = true) ∧
    ((newWikiPath env t).success = true →
      (newWikiPath env t).wikiDirExists = true) := by
  unfold newWikiPath
  rcases hgo : (generate_wiki_content env.dataDir).outcome with e | b
  · simp only [hgo]
    repeat' split
    all_goals try simp
  · cases b <;> simp only [hgo] <;> repeat' split
    all_goals try simp

theorem existingWikiPath_success_iff (env : Env) (t : List Action) :
    ((existingWikiPath env t).result = .ok () ↔
      (existingWikiPath env t).success = true) ∧
    ((existingWikiPath env t).success = true →
      (existingWikiPath env t).wikiDirExists = true) := by
  unfold existingWikiPath
  rcases hgo : (generate_wiki_content env.dataDir).outcome with e | b
  · simp only [hgo]
    repeat' split
    all_goals try simp
  · cases b <;> simp only [hgo] <;> repeat' split
    all_goals try simp

theorem bodyRun_success_iff (env : Env) :
    ((bodyRun env).result = .ok () ↔ (bodyRun env).success = true) ∧
    ((bodyRun env).success = true → (bodyRun env).wikiDirExists = true) := by
  unfold bodyRun
  repeat' split
  all_goals
    first
      | exact newWikiPath_success_iff _ _
      | exact existingWikiPath_success_iff _ _
      | simp

theorem existingWikiPath_pushes (env : Env) (t : List Action) (f : Bool)
    (b : String) (h : Action.gitPush f b ∈ (existingWikiPath env t).trace) :
    Action.gitPush f b ∈ t ∨ f = false := by
  simp only [existingWikiPath] at h
  repeat' split at h
  all_goals try simp_all [List.mem_append, List.mem_map]
  all_goals tauto

theorem check_repo_access_forbidden (hasWiki : Bool) (perms : Perms)
    (h : perms.push = false ∨ perms.pull = false ∨
      (hasWiki = false ∧ perms.admin = false)) :
    ∃ m, check_repo_access (.ok hasWiki perms) = .error (.wikiError m) := by
  unfold check_repo_access
  rcases h with h | h | ⟨h1, h2⟩
  · simp [h]
  · cases hp : perms.push <;> simp [h, hp]
  · cases hp : perms.push <;> cases hq : perms.pull <;> simp [h1, h2, hp, hq]

/-! ### Claim theorems -/

/-- C9: `format_labels` is a total Lean function and satisfies the five
specified normalization cases: `None` yields `[]`, an empty list yields
`[]`, the string `"bug"` yields `["bug"]`, a list of strings is returned
unchanged, and a list of objects with `name` `"bug"` yields `["bug"]`. -/
theorem C9_format_labels_spec :
    format_labels .jnull = [] ∧
    format_labels (.jarr []) = [] ∧
    format_labels (.jstr "bug") = [.jstr "bug"] ∧
    (∀ xs : List JValue, (∀ x ∈ xs, ∃ s, x = JValue.jstr s) →
      format_labels (.jarr xs) = xs) ∧
    format_labels (.jarr [.jobj [("name", .jstr "bug")]]) = [.jstr "bug"] := by
  refine ⟨rfl, rfl, rfl, ?_, rfl⟩
  intro xs h
  match xs, h with
  | [], _ => rfl
  | x :: l, h =>
    obtain ⟨s, rfl⟩ := h x (List.mem_cons_self x l)
    simp [format_labels, pyTruthy, isDict]

/-- Witness for C9: the unchanged-list case at a concrete two-element
list of strings. -/
theorem C9_format_labels_spec_witness :
    format_labels (.jarr [.jstr "bug", .jstr "ui"]) = [.jstr "bug", .jstr "ui"] :=
  C9_format_labels_spec.2.2.2.1 [.jstr "bug", .jstr "ui"] (by
    intro x hx
    simp only [List.mem_cons, List.not_mem_nil, or_false] at hx
    rcases hx with rfl | rfl
    exacts [⟨"bug", rfl⟩, ⟨"ui", rfl⟩])

/-- C10: an absent, unreadable or invalid-JSON data file makes
`generate_wiki_content` raise before any page is written, while a file
parsing to an empty collection is accepted (returned, and when both are
empty the generator returns `False` without raising). -/
theorem C10_input_file_validation :
    (∀ dd : DataDir,
      (dd.issues = .absent ∨ dd.issues = .unreadable ∨ dd.issues = .invalid ∨
       dd.milestones = .absent ∨ dd.milestones = .unreadable ∨
       dd.milestones = .invalid) →
      (generate_wiki_content dd).written = [] ∧
      ∃ m, (generate_wiki_content dd).outcome = .error (.wikiError m)) ∧
    verify_json_content (.content (.jarr [])) = .ok (.jarr []) ∧
    generate_wiki_content emptyDataDir = ⟨[], .ok false⟩ := by
  refine ⟨?_, rfl, rfl⟩
  rintro ⟨fi, fm⟩ h
  rcases h with h | h | h | h | h | h <;> subst h <;>
    first
      | exact ⟨rfl, _, rfl⟩
      | (cases fi <;> exact ⟨rfl, _, rfl⟩)

/-- Witness for C10: an invalid issues file at a concrete data
directory. -/
theorem C10_input_file_validation_witness :
    (generate_wiki_content ⟨.invalid, .content (.jarr [])⟩).written = [] ∧
    ∃ m, (generate_wiki_content ⟨.invalid, .content (.jarr [])⟩).outcome =
      .error (.wikiError m) :=
  C10_input_file_validation.1 ⟨.invalid, .content (.jarr [])⟩
    (Or.inr (Or.inr (Or.inl rfl)))

/-- Counterexample to C4: an issue whose `labels` is the list
`["bug", 5]` (strings mixed with a number) is not degraded to an empty
set — `format_labels` returns the list unchanged, `', '.join` raises
`TypeError`, and the whole run aborts with a `WikiGenerationError`
instead of publishing the remaining records. -/
theorem C4_counterexample :
    format_labels (.jarr [.jstr "bug", .jnum 5]) = [.jstr "bug", .jnum 5] ∧
    (generate_wiki_content
      { issues := .content (.jarr [mixedLabelsIssue]),
        milestones := .content (.jarr []) }).outcome =
      .error (.typeError "sequence item: expected str instance") ∧
    (generate_wiki_pages
      { baseEnv with dataDir :=
        { issues := .content (.jarr [mixedLabelsIssue]),
          milestones := .content (.jarr []) } }).result =
      .error (.wikiError "Error inesperado: sequence item: expected str instance") :=
  ⟨rfl, rfl, rfl⟩

/-- C4 as amended: non-list label shapes never abort — `format_labels`
degrades them to `[]` or a singleton string and the subsequent join
always succeeds — and a milestone object lacking a `title` degrades to
the placeholder `'Sin título'`; but a labels *list* containing
non-string entries is passed through and aborts the run (see the
counterexample). -/
theorem C4_nonlist_label_shapes_degrade :
    (∀ v : JValue, (∀ xs, v ≠ .jarr xs) →
      ∃ s, joinLabels (format_labels v) = .ok s) ∧
    (∀ fs, lookupField fs "title" = none →
      milestoneTitle (.jobj fs) = .jstr "Sin título") := by
  constructor
  · intro v h
    match v with
    | .jarr xs => exact absurd rfl (h xs)
    | .jnull => exact ⟨"", rfl⟩
    | .jbool b => cases b <;> exact ⟨"", rfl⟩
    | .jnum n =>
      refine ⟨"", ?_⟩
      unfold format_labels
      split <;> rfl
    | .jobj fs =>
      refine ⟨"", ?_⟩
      unfold format_labels
      split <;> rfl
    | .jstr s =>
      by_cases hs : s = ""
      · subst hs; exact ⟨"", rfl⟩
      · refine ⟨s, ?_⟩
        have : pyTruthy (.jstr s) = true := by simp [pyTruthy, hs]
        simp [format_labels, this, joinLabels, asStrings, joinWith]
  · intro fs h
    simp [milestoneTitle, h]

/-- Witness for C4 as amended: a truthy non-list, non-string labels
value (a number) joins to the empty string, and a concrete title-less
milestone object degrades to the placeholder. -/
theorem C4_nonlist_label_shapes_degrade_witness :
    (∃ s, joinLabels (format_labels (.jnum 7)) = .ok s) ∧
    milestoneTitle (.jobj [("state", .jstr "open")]) = .jstr "Sin título" :=
  ⟨C4_nonlist_label_shapes_degrade.1 (.jnum 7) (by intro xs h; cases h),
   C4_nonlist_label_shapes_degrade.2 [("state", .jstr "open")] rfl⟩

/-- Counterexample to C8: with `milestones = [{state: "open"}]` (no
title) and an empty issues list, no validation rejects the record —
rendering is attempted, `Home.md` and the milestones page are written
(the latter partially), and the run aborts with `KeyError('title')`
mid-render. -/
theorem C8_counterexample :
    ((generate_wiki_content
      { issues := .content (.jarr []),
        milestones := .content (.jarr [.jobj [("state", .jstr "open")]]) }).written.map
          Prod.fst = ["Home.md", "Milestones.md"]) ∧
    (generate_wiki_content
      { issues := .content (.jarr []),
        milestones := .content (.jarr [.jobj [("state", .jstr "open")]]) }).outcome =
      .error (.keyError "title") :=
  ⟨rfl, rfl⟩

/-- C8 as amended: a milestone record lacking a title is not rejected
before rendering — instead, rendering its entry raises
`KeyError('title')` immediately, and content generation aborts with that
error after the index page (and the milestones-page header) have already
been written; the title-less milestone itself is never rendered into the
page. -/
theorem C8_missing_title_aborts_mid_render (fields : List (String × JValue))
    (h : lookupField fields "title" = none) :
    renderMilestoneEntry (.jobj fields) = ("", some (.keyError "title")) ∧
    (generate_wiki_content
      { issues := .content (.jarr []),
        milestones := .content (.jarr [.jobj fields]) }).outcome =
      .error (.keyError "title") ∧
    (generate_wiki_content
      { issues := .content (.jarr []),
        milestones := .content (.jarr [.jobj fields]) }).written.map Prod.fst =
      ["Home.md", "Milestones.md"] := by
  have hsub : subscript (.jobj fields) "title" = .error (.keyError "title") := by
    simp [subscript, h]
  have hentry : renderMilestoneEntry (.jobj fields) = ("", some (.keyError "title")) := by
    unfold renderMilestoneEntry
    rw [hsub]
  refine ⟨hentry, ?_, ?_⟩ <;>
    simp [generate_wiki_content, verify_json_content, pyTruthy, milestonesPage,
      pyIter, renderMilestonesLoop, hentry]

/-- Witness for C8 as amended: the concrete title-less milestone
`{state: "open"}`. -/
theorem filterByState_eq_filter (xs : List JValue) (s : String)
    (h : ∀ i ∈ xs, ∃ v, subscript i "state" = .ok v) :
    filterByState xs s = .ok (xs.filter (stateIs · s)) := by
  induction xs with
  | nil => rfl
  | cons i rest ih =>
    obtain ⟨v, hv⟩ := h i (List.mem_cons_self i rest)
    have hrest := ih fun j hj => h j (List.mem_cons_of_mem i hj)
    simp [filterByState, Bind.bind, Except.bind, Pure.pure, Except.pure, hv,
      hrest, List.filter_cons, stateIs]

/-- C6: when every issue record's `state` is the string `"open"` or
`"closed"` (the `IssueRecord.state` enum), the two page partitions
computed by `generate_wiki_content` are the order-preserving filters of
the input, and every input issue belongs to exactly one of them. -/
theorem C6_issue_partition (issues : List JValue)
    (h : ∀ i ∈ issues, subscript i "state" = .ok (.jstr "open") ∨
      subscript i "state" = .ok (.jstr "closed")) :
    activeIssuesOf (.jarr issues) = .ok (issues.filter (stateIs · "open")) ∧
    closedIssuesOf (.jarr issues) = .ok (issues.filter (stateIs · "closed")) ∧
    ∀ i ∈ issues,
      (i ∈ issues.filter (stateIs · "open") ↔
        i ∉ issues.filter (stateIs · "closed")) := by
  have h' : ∀ i ∈ issues, ∃ v, subscript i "state" = .ok v := by
    intro i hi
    rcases h i hi with hv | hv
    exacts [⟨_, hv⟩, ⟨_, hv⟩]
  refine ⟨?_, ?_, ?_⟩
  · simp [activeIssuesOf, pyIter, Bind.bind, Except.bind,
      filterByState_eq_filter issues "open" h']
  · simp [closedIssuesOf, pyIter, Bind.bind, Except.bind,
      filterByState_eq_filter issues "closed" h']
  · intro i hi
    rcases h i hi with hv | hv
    · have h1 : stateIs i "open" = true := by simp [stateIs, hv, jEq]
      have h2 : stateIs i "closed" = false := by simp [stateIs, hv, jEq]
      simp [List.mem_filter, hi, h1, h2]
    · have h1 : stateIs i "open" = false := by simp [stateIs, hv, jEq]
      have h2 : stateIs i "closed" = true := by simp [stateIs, hv, jEq]
      simp [List.mem_filter, hi, h1, h2]

/-- Witness for C6: a concrete two-issue input, one open and one
closed. -/
theorem C6_issue_partition_witness :
    activeIssuesOf (.jarr [sampleOpenIssue, sampleClosedIssue]) =
      .ok ([sampleOpenIssue, sampleClosedIssue].filter (stateIs · "open")) ∧
    closedIssuesOf (.jarr [sampleOpenIssue, sampleClosedIssue]) =
      .ok ([sampleOpenIssue, sampleClosedIssue].filter (stateIs · "closed")) ∧
    ∀ i ∈ [sampleOpenIssue, sampleClosedIssue],
      (i ∈ [sampleOpenIssue, sampleClosedIssue].filter (stateIs · "open") ↔
        i ∉ [sampleOpenIssue, sampleClosedIssue].filter (stateIs · "closed")) :=
  C6_issue_partition [sampleOpenIssue, sampleClosedIssue] (by
    intro i hi
    simp only [List.mem_cons, List.not_mem_nil, or_false] at hi
    rcases hi with rfl | rfl
    · left; rfl
    · right; rfl)

theorem C8_missing_title_aborts_mid_render_witness :
    renderMilestoneEntry (.jobj [("state", .jstr "open")]) =
      ("", some (.keyError "title")) ∧
    (generate_wiki_content
      { issues := .content (.jarr []),
        milestones := .content (.jarr [.jobj [("state", .jstr "open")]]) }).outcome =
      .error (.keyError "title") ∧
    (generate_wiki_content
      { issues := .content (.jarr []),
        milestones := .content (.jarr [.jobj [("state", .jstr "open")]]) }).written.map
          Prod.fst = ["Home.md", "Milestones.md"] :=
  C8_missing_title_aborts_mid_render [("state", .jstr "open")] rfl

/-- C7: whenever the access check runs and reports missing write
permission, missing read permission, or a disabled wiki without admin
permission, the run fails with the corresponding `WikiGenerationError`
(the Forbidden class), and the trace contains no workspace creation, no
clone and no repository initialization. -/
theorem C7_guard_failure_before_workspace (env : Env) (tk r : String)
    (hasWiki : Bool) (perms : Perms)
    (hd : env.dataDirExists = true)
    (htok : env.githubToken = some tk) (htk : isBlank tk = false)
    (hrepo : env.githubRepository = some r)
    (hapi : env.api = .ok hasWiki perms)
    (hforb : perms.push = false ∨ perms.pull = false ∨
      (hasWiki = false ∧ perms.admin = false)) :
    (∃ m, (generate_wiki_pages env).result = .error (.wikiError m)) ∧
    ∀ a ∈ (generate_wiki_pages env).trace,
      a ≠ .mkdirWikiDir ∧ a ≠ .gitClone ∧ a ≠ .gitInit := by
  obtain ⟨m, hm⟩ := check_repo_access_forbidden hasWiki perms hforb
  have hb : bodyRun env =
      ⟨(if env.wikiDirLeftover then [Action.cleanupWikiDir] else []) ++
        [Action.apiGet], .error (.wikiError m), false, false⟩ := by
    simp [bodyRun, htok, htk, hrepo, hapi, hm]
  constructor
  · exact ⟨m, by simp [generate_wiki_pages, hd, hb, toRaised]⟩
  · cases hl : env.wikiDirLeftover <;> cases hc : env.credFileExists <;>
      simp [generate_wiki_pages, hd, hb, hl, hc, List.forall_mem_cons]

/-- Witness for C7: a concrete environment whose token lacks write
permission. -/
theorem C7_guard_failure_before_workspace_witness :
    (∃ m, (generate_wiki_pages
      { baseEnv with api := .ok true { push := false, pull := true, admin := true } }).result =
        .error (.wikiError m)) ∧
    ∀ a ∈ (generate_wiki_pages
      { baseEnv with api := .ok true { push := false, pull := true, admin := true } }).trace,
      a ≠ .mkdirWikiDir ∧ a ≠ .gitClone ∧ a ≠ .gitInit :=
  C7_guard_failure_before_workspace _ "ghs-token" "owner/repo" true
    { push := false, pull := true, admin := true }
    rfl rfl (by decide) rfl rfl (Or.inl rfl)

/-- Counterexample to C1: with both data files parsing to empty
collections (and everything external healthy), the content generator
returns its falsy result without raising, but the run does not terminate
in a NO_CHANGE success — `generate_wiki_pages` raises
`WikiGenerationError("No se pudo generar el contenido")`. -/
theorem C1_counterexample :
    generate_wiki_content emptyDataDir = ⟨[], .ok false⟩ ∧
    (generate_wiki_pages { baseEnv with dataDir := emptyDataDir }).result =
      .error (.wikiError "No se pudo generar el contenido") :=
  ⟨rfl, rfl⟩

/-- C1 as amended: when both input collections are empty the generator
returns the falsy "nothing to publish" result without raising and
without writing pages, but the run then terminates in a failure
(`WikiGenerationError`), not in NO_CHANGE; no page is written, nothing
is staged, committed or pushed. -/
theorem C1_empty_inputs_fail_run (env : Env) (tk r : String) (hasWiki : Bool)
    (perms : Perms) (ji jm : JValue)
    (hd : env.dataDirExists = true)
    (htok : env.githubToken = some tk) (htk : isBlank tk = false)
    (hrepo : env.githubRepository = some r)
    (hapi : env.api = .ok hasWiki perms)
    (hpush : perms.push = true) (hpull : perms.pull = true)
    (hadmin : hasWiki = false → perms.admin = true)
    (hen : hasWiki = false → env.enableWikiOk = true)
    (hls : env.lsRemoteOk = true)
    (hex : env.cloneOk = true → env.checkoutOk = true ∧ env.pullOk = true)
    (hnw : env.cloneOk = false → env.gitInitOk = true ∧ env.remoteAddOk = true)
    (hiss : env.dataDir.issues = .content ji)
    (hmil : env.dataDir.milestones = .content jm)
    (hti : pyTruthy ji = false) (htm : pyTruthy jm = false) :
    generate_wiki_content env.dataDir = ⟨[], .ok false⟩ ∧
    (∃ m, (generate_wiki_pages env).result = .error (.wikiError m)) ∧
    (∀ n, Action.writePage n ∉ (generate_wiki_pages env).trace) ∧
    Action.gitAdd ∉ (generate_wiki_pages env).trace ∧
    (∀ m, Action.gitCommit m ∉ (generate_wiki_pages env).trace) ∧
    (∀ f b, Action.gitPush f b ∉ (generate_wiki_pages env).trace) := by
  have hgen : generate_wiki_content env.dataDir = ⟨[], .ok false⟩ := by
    simp [generate_wiki_content, hiss, hmil, verify_json_content, hti, htm]
  have hbp := bodyRun_eq_paths env tk r hasWiki perms htok htk hrepo hapi
    hpush hpull hadmin hen hls
  cases hc : env.cloneOk with
  | false =>
    obtain ⟨hinit, hra⟩ := hnw hc
    rw [hc, if_neg (by simp)] at hbp
    have hb : bodyRun env =
        ⟨leadTrace env hasWiki ++
          [.mkdirWikiDir, .chdirWiki, .gitInit, .gitRemoteAdd],
          .error (.wikiError "No se pudo generar el contenido inicial"),
          false, true⟩ := by
      rw [hbp, newWikiPath_genfalse env _ hinit hra (by rw [hgen])]
      simp [hgen]
    refine ⟨hgen, ⟨"No se pudo generar el contenido inicial",
        by simp [generate_wiki_pages, hd, hb, toRaised]⟩,
      ?_, ?_, ?_, ?_⟩ <;>
      cases hcred : env.credFileExists <;>
        simp [generate_wiki_pages, hd, hb, hcred, List.mem_append,
          no_write_leadTrace, no_add_leadTrace, no_commit_leadTrace,
          no_push_leadTrace]
  | true =>
    obtain ⟨hck, hpl⟩ := hex hc
    rw [hc, if_pos rfl] at hbp
    have hb : bodyRun env =
        ⟨leadTrace env hasWiki ++
          [.chdirWiki, .gitLsRemoteSymref, .gitCheckout (branchOf env),
            .gitPull (branchOf env)],
          .error (.wikiError "No se pudo generar el contenido"),
          false, true⟩ := by
      rw [hbp, existingWikiPath_genfalse env _ hck hpl (by rw [hgen])]
      simp [hgen]
    refine ⟨hgen, ⟨"No se pudo generar el contenido",
        by simp [generate_wiki_pages, hd, hb, toRaised]⟩,
      ?_, ?_, ?_, ?_⟩ <;>
      cases hcred : env.credFileExists <;>
        simp [generate_wiki_pages, hd, hb, hcred, List.mem_append,
          no_write_leadTrace, no_add_leadTrace, no_commit_leadTrace,
          no_push_leadTrace]

/-- Witness for C1 as amended: the concrete all-healthy environment with
both files parsing to empty lists. -/
theorem C1_empty_inputs_fail_run_witness :
    generate_wiki_content ({ baseEnv with dataDir := emptyDataDir } : Env).dataDir =
      ⟨[], .ok false⟩ ∧
    (∃ m, (generate_wiki_pages { baseEnv with dataDir := emptyDataDir }).result =
      .error (.wikiError m)) ∧
    (∀ n, Action.writePage n ∉
      (generate_wiki_pages { baseEnv with dataDir := emptyDataDir }).trace) ∧
    Action.gitAdd ∉
      (generate_wiki_pages { baseEnv with dataDir := emptyDataDir }).trace ∧
    (∀ m, Action.gitCommit m ∉
      (generate_wiki_pages { baseEnv with dataDir := emptyDataDir }).trace) ∧
    (∀ f b, Action.gitPush f b ∉
      (generate_wiki_pages { baseEnv with dataDir := emptyDataDir }).trace) :=
  C1_empty_inputs_fail_run _ "ghs-token" "owner/repo" true
    { push := true, pull := true, admin := true } (.jarr []) (.jarr [])
    rfl rfl (by decide) rfl rfl rfl rfl (fun h => by cases h) (fun h => by cases h)
    rfl (fun _ => ⟨rfl, rfl⟩) (fun h => by cases h) rfl rfl rfl rfl

/-- Counterexample to C2: a fully successful run (existing wiki, dirty
tree) deletes the credential file but leaves the scratch working-tree
directory in place — it is not removed regardless of outcome. -/
theorem C2_counterexample :
    (generate_wiki_pages baseEnv).result = .ok () ∧
    (generate_wiki_pages baseEnv).wikiDirAtEnd = true ∧
    (generate_wiki_pages baseEnv).credFileAtEnd = false :=
  ⟨rfl, rfl, rfl⟩

/-- C2 as amended: on every run whose data directory exists, the
credential cache file is deleted in the finalizer; the scratch directory
is removed at run end only when the run failed — a successful run leaves
it in place (a leftover directory at the fixed path is instead removed
at the start of the next run, before reuse). -/
theorem C2_cleanup_only_on_failure (env : Env)
    (hd : env.dataDirExists = true) :
    (generate_wiki_pages env).credFileAtEnd = false ∧
    ((generate_wiki_pages env).result = .ok () →
      (generate_wiki_pages env).wikiDirAtEnd = true) ∧
    (∀ e, (generate_wiki_pages env).result = .error e →
      (generate_wiki_pages env).wikiDirAtEnd = false) := by
  have hinv := bodyRun_success_iff env
  rcases hr : (bodyRun env).result with e | u
  · have hs : (bodyRun env).success = false := by
      cases h2 : (bodyRun env).success
      · rfl
      · exact absurd (hinv.1.mpr h2) (by simp [hr])
    refine ⟨?_, ?_, ?_⟩
    · simp [generate_wiki_pages, hd]
    · intro hok
      exact absurd hok (by simp [generate_wiki_pages, hd, hr])
    · intro e' _
      cases hw : (bodyRun env).wikiDirExists <;>
        simp [generate_wiki_pages, hd, hr, hs, hw]
  · cases u
    have hs := hinv.1.mp hr
    have hw := hinv.2 hs
    refine ⟨?_, ?_, ?_⟩
    · simp [generate_wiki_pages, hd]
    · intro _
      simp [generate_wiki_pages, hd, hr, hs, hw]
    · intro e' he'
      exact absurd he' (by simp [generate_wiki_pages, hd, hr])

/-- Witness for C2 as amended: the concrete baseline environment. -/
theorem C2_cleanup_only_on_failure_witness :
    (generate_wiki_pages baseEnv).credFileAtEnd = false ∧
    ((generate_wiki_pages baseEnv).result = .ok () →
      (generate_wiki_pages baseEnv).wikiDirAtEnd = true) ∧
    (∀ e, (generate_wiki_pages baseEnv).result = .error e →
      (generate_wiki_pages baseEnv).wikiDirAtEnd = false) :=
  C2_cleanup_only_on_failure baseEnv rfl

/-- Counterexample to C3: on the new-store path (clone fails), the run
pushes with `--force` (`git push --force origin main`, line 137) — the
engine does not "never force-push". -/
theorem C3_counterexample :
    Action.gitPush true "main" ∈
      (generate_wiki_pages { baseEnv with cloneOk := false }).trace ∧
    (generate_wiki_pages { baseEnv with cloneOk := false }).result = .ok () :=
  ⟨by decide, rfl⟩

/-- C3 as amended: on the existing-store path every push is a plain
(non-force) push on top of the checked-out and pulled default branch,
and a failure of either checkout or pull is fatal, with nothing
committed or pushed; the new-store initialization path, however, pushes
its initial commit with `--force`. -/
theorem C3_existing_store_appends_only (env : Env) (tk r : String)
    (hasWiki : Bool) (perms : Perms)
    (hd : env.dataDirExists = true)
    (htok : env.githubToken = some tk) (htk : isBlank tk = false)
    (hrepo : env.githubRepository = some r)
    (hapi : env.api = .ok hasWiki perms)
    (hpush : perms.push = true) (hpull : perms.pull = true)
    (hadmin : hasWiki = false → perms.admin = true)
    (hen : hasWiki = false → env.enableWikiOk = true)
    (hls : env.lsRemoteOk = true)
    (hclone : env.cloneOk = true) :
    (∀ f b, Action.gitPush f b ∈ (generate_wiki_pages env).trace → f = false) ∧
    (env.checkoutOk = false →
      (generate_wiki_pages env).result =
        .error (.wikiError "Error cambiando a rama por defecto") ∧
      (∀ m, Action.gitCommit m ∉ (generate_wiki_pages env).trace) ∧
      (∀ f b, Action.gitPush f b ∉ (generate_wiki_pages env).trace)) ∧
    (env.checkoutOk = true → env.pullOk = false →
      (generate_wiki_pages env).result =
        .error (.wikiError "Error actualizando rama") ∧
      (∀ m, Action.gitCommit m ∉ (generate_wiki_pages env).trace) ∧
      (∀ f b, Action.gitPush f b ∉ (generate_wiki_pages env).trace)) := by
  have hbp := bodyRun_eq_paths env tk r hasWiki perms htok htk hrepo hapi
    hpush hpull hadmin hen hls
  rw [hclone, if_pos rfl] at hbp
  refine ⟨?_, ?_, ?_⟩
  · intro f b h
    rcases run_trace_mem env hd _ h with hmem | h | h | h
    · rw [hbp] at hmem
      rcases existingWikiPath_pushes env _ f b hmem with hp | hp
      · exact absurd hp (no_push_leadTrace env hasWiki f b)
      · exact hp
    all_goals cases h
  · intro hck
    have hb : bodyRun env =
        ⟨leadTrace env hasWiki ++
          [.chdirWiki, .gitLsRemoteSymref, .gitCheckout (branchOf env)],
          .error (.wikiError "Error cambiando a rama por defecto"),
          false, true⟩ := by
      rw [hbp, existingWikiPath_checkoutFail env _ hck]
    refine ⟨by simp [generate_wiki_pages, hd, hb, toRaised], ?_, ?_⟩ <;>
      cases hcred : env.credFileExists <;>
        simp [generate_wiki_pages, hd, hb, hcred, List.mem_append,
          no_commit_leadTrace, no_push_leadTrace]
  · intro hck hpl
    have hb : bodyRun env =
        ⟨leadTrace env hasWiki ++
          [.chdirWiki, .gitLsRemoteSymref, .gitCheckout (branchOf env),
            .gitPull (branchOf env)],
          .error (.wikiError "Error actualizando rama"), false, true⟩ := by
      rw [hbp, existingWikiPath_pullFail env _ hck hpl]
    refine ⟨by simp [generate_wiki_pages, hd, hb, toRaised], ?_, ?_⟩ <;>
      cases hcred : env.credFileExists <;>
        simp [generate_wiki_pages, hd, hb, hcred, List.mem_append,
          no_commit_leadTrace, no_push_leadTrace]

/-- Witness for C3 as amended: the baseline existing-store environment
with a failing pull. -/
theorem C3_existing_store_appends_only_witness :
    (∀ f b, Action.gitPush f b ∈
      (generate_wiki_pages { baseEnv with pullOk := false }).trace →
      f = false) ∧
    (({ baseEnv with pullOk := false } : Env).checkoutOk = false →
      (generate_wiki_pages { baseEnv with pullOk := false }).result =
        .error (.wikiError "Error cambiando a rama por defecto") ∧
      (∀ m, Action.gitCommit m ∉
        (generate_wiki_pages { baseEnv with pullOk := false }).trace) ∧
      (∀ f b, Action.gitPush f b ∉
        (generate_wiki_pages { baseEnv with pullOk := false }).trace)) ∧
    (({ baseEnv with pullOk := false } : Env).checkoutOk = true →
      ({ baseEnv with pullOk := false } : Env).pullOk = false →
      (generate_wiki_pages { baseEnv with pullOk := false }).result =
        .error (.wikiError "Error actualizando rama") ∧
      (∀ m, Action.gitCommit m ∉
        (generate_wiki_pages { baseEnv with pullOk := false }).trace) ∧
      (∀ f b, Action.gitPush f b ∉
        (generate_wiki_pages { baseEnv with pullOk := false }).trace)) :=
  C3_existing_store_appends_only _ "ghs-token" "owner/repo" true
    { push := true, pull := true, admin := true }
    rfl rfl (by decide) rfl rfl rfl rfl (fun h => by cases h) (fun h => by cases h)
    rfl rfl

/-- C5: in every run that reaches the content-written stage with healthy
git commands, the engine stages everything (`git add .`), and commits
and pushes exactly when the working tree is dirty — where on the
new-store path the freshly initialized tree holding the generated pages
is necessarily dirty, and on the existing-store path dirtiness is the
porcelain status; a clean tree yields a successful NO_CHANGE run with no
commit and no push, and the commit message is `"Initial wiki content"`
on the new-store path and `"Update wiki content"` on the
existing-store path. -/
theorem C5_commit_iff_dirty (env : Env) (tk r : String) (hasWiki : Bool)
    (perms : Perms)
    (hd : env.dataDirExists = true)
    (htok : env.githubToken = some tk) (htk : isBlank tk = false)
    (hrepo : env.githubRepository = some r)
    (hapi : env.api = .ok hasWiki perms)
    (hpush : perms.push = true) (hpull : perms.pull = true)
    (hadmin : hasWiki = false → perms.admin = true)
    (hen : hasWiki = false → env.enableWikiOk = true)
    (hls : env.lsRemoteOk = true)
    (hck : env.checkoutOk = true) (hpl : env.pullOk = true)
    (hinit : env.gitInitOk = true) (hra : env.remoteAddOk = true)
    (hgen : (generate_wiki_content env.dataDir).outcome = .ok true)
    (hadd : env.addOk = true) (hcm : env.commitOk = true)
    (hbm : env.branchMOk = true) (hps : env.pushOk = true) :
    Action.gitAdd ∈ (generate_wiki_pages env).trace ∧
    ((∃ m, Action.gitCommit m ∈ (generate_wiki_pages env).trace) ↔
      treeDirty env = true) ∧
    ((∃ f b, Action.gitPush f b ∈ (generate_wiki_pages env).trace) ↔
      treeDirty env = true) ∧
    (∀ m, Action.gitCommit m ∈ (generate_wiki_pages env).trace →
      m = if env.cloneOk then "Update wiki content" else "Initial wiki content") ∧
    (treeDirty env = false → (generate_wiki_pages env).result = .ok ()) := by
  have hbp := bodyRun_eq_paths env tk r hasWiki perms htok htk hrepo hapi
    hpush hpull hadmin hen hls
  cases hc : env.cloneOk with
  | false =>
    rw [hc, if_neg (by simp)] at hbp
    have hb : bodyRun env =
        ⟨leadTrace env hasWiki ++
          [.mkdirWikiDir, .chdirWiki, .gitInit, .gitRemoteAdd] ++
          (generate_wiki_content env.dataDir).written.map
            (fun p => .writePage p.fst) ++
          [.gitAdd, .gitCommit "Initial wiki content", .gitBranchM "main",
            .gitPush true "main"],
          .ok (), true, true⟩ := by
      rw [hbp, newWikiPath_success env _ hinit hra hgen hadd hcm hbm hps]
    have hdirty : treeDirty env = true := by simp [treeDirty, hc]
    refine ⟨?_, ?_, ?_, ?_, ?_⟩
    · cases hcred : env.credFileExists <;>
        simp [generate_wiki_pages, hd, hb, hcred, List.mem_append]
    · simp only [hdirty, iff_true]
      exact ⟨"Initial wiki content", by
        cases hcred : env.credFileExists <;>
          simp [generate_wiki_pages, hd, hb, hcred, List.mem_append]⟩
    · simp only [hdirty, iff_true]
      exact ⟨true, "main", by
        cases hcred : env.credFileExists <;>
          simp [generate_wiki_pages, hd, hb, hcred, List.mem_append]⟩
    · intro m hm
      rcases run_trace_mem env hd _ hm with hmem | h | h | h
      · rw [hb] at hmem
        simp [List.mem_append, no_commit_leadTrace] at hmem
        simp [hmem]
      all_goals cases h
    · intro hfalse
      rw [hdirty] at hfalse
      cases hfalse
  | true =>
    rw [hc, if_pos rfl] at hbp
    have hb : bodyRun env =
        ⟨leadTrace env hasWiki ++
          [.chdirWiki, .gitLsRemoteSymref, .gitCheckout (branchOf env),
            .gitPull (branchOf env)] ++
          (generate_wiki_content env.dataDir).written.map
            (fun p => .writePage p.fst) ++
          [.gitAdd, .gitStatus] ++
          (if env.statusDirty then
            [.gitCommit "Update wiki content", .gitPush false (branchOf env)]
          else []),
          .ok (), true, true⟩ := by
      rw [hbp, existingWikiPath_success env _ hck hpl hgen hadd hcm hps]
    have hdirty : treeDirty env = env.statusDirty := by simp [treeDirty, hc]
    cases hsd : env.statusDirty with
    | true =>
      rw [hsd] at hdirty
      refine ⟨?_, ?_, ?_, ?_, ?_⟩
      · cases hcred : env.credFileExists <;>
          simp [generate_wiki_pages, hd, hb, hcred, hsd, List.mem_append]
      · simp only [hdirty, iff_true]
        exact ⟨"Update wiki content", by
          cases hcred : env.credFileExists <;>
            simp [generate_wiki_pages, hd, hb, hcred, hsd, List.mem_append]⟩
      · simp only [hdirty, iff_true]
        exact ⟨false, branchOf env, by
          cases hcred : env.credFileExists <;>
            simp [generate_wiki_pages, hd, hb, hcred, hsd, List.mem_append]⟩
      · intro m hm
        rcases run_trace_mem env hd _ hm with hmem | h | h | h
        · rw [hb] at hmem
          simp [hsd, List.mem_append, no_commit_leadTrace] at hmem
          simp [hmem]
        all_goals cases h
      · intro hfalse
        rw [hdirty] at hfalse
        cases hfalse
    | false =>
      rw [hsd] at hdirty
      refine ⟨?_, ?_, ?_, ?_, ?_⟩
      · cases hcred : env.credFileExists <;>
          simp [generate_wiki_pages, hd, hb, hcred, hsd, List.mem_append]
      · simp only [hdirty, Bool.false_eq_true, iff_false]
        rintro ⟨m, hm⟩
        rcases run_trace_mem env hd _ hm with hmem | h | h | h
        · rw [hb] at hmem
          simp [hsd, List.mem_append, no_commit_leadTrace] at hmem
        all_goals cases h
      · simp only [hdirty, Bool.false_eq_true, iff_false]
        rintro ⟨f, b, hm⟩
        rcases run_trace_mem env hd _ hm with hmem | h | h | h
        · rw [hb] at hmem
          simp [hsd, List.mem_append, no_push_leadTrace] at hmem
        all_goals cases h
      · intro m hm
        rcases run_trace_mem env hd _ hm with hmem | h | h | h
        · rw [hb] at hmem
          simp [hsd, List.mem_append, no_commit_leadTrace] at hmem
        all_goals cases h
      · intro _
        simp [generate_wiki_pages, hd, hb]

/-- Witness for C5: the baseline environment (existing store, dirty
tree) — the run stages, commits with the update message, and pushes. -/
theorem C5_commit_iff_dirty_witness :
    Action.gitAdd ∈ (generate_wiki_pages baseEnv).trace ∧
    ((∃ m, Action.gitCommit m ∈ (generate_wiki_pages baseEnv).trace) ↔
      treeDirty baseEnv = true) ∧
    ((∃ f b, Action.gitPush f b ∈ (generate_wiki_pages baseEnv).trace) ↔
      treeDirty baseEnv = true) ∧
    (∀ m, Action.gitCommit m ∈ (generate_wiki_pages baseEnv).trace →
      m = if baseEnv.cloneOk then "Update wiki content"
        else "Initial wiki content") ∧
    (treeDirty baseEnv = false → (generate_wiki_pages baseEnv).result = .ok ()) :=
  C5_commit_iff_dirty baseEnv "ghs-token" "owner/repo" true
    { push := true, pull := true, admin := true }
    rfl rfl (by decide) rfl rfl rfl rfl (fun h => by cases h) (fun h => by cases h)
    rfl rfl rfl rfl rfl rfl rfl rfl rfl rfl

end WikiGen
